import Mathlib

/-!
Verification of the Line-of-Sight Clearance Calculator
(`src/Assignments/1/Submission/FirstQuestion.py`).

The script reads a line-oriented input file (building heights, path
distance, frequency in MHz, obstruction count, then distance/height pairs),
computes first-Fresnel-zone clearance radii for each obstruction, derives
minimum antenna heights for full line-of-sight (60% clearance) and near
line-of-sight (40% clearance), and writes a fixed-template output file,
printing a free-space path-loss diagnostic to the console.

Embedding conventions: Python `int`-parsed values are ℤ; Python floats are
idealised as real numbers, and since every float the program ever parses is
a finite decimal, the parsed frequency is carried exactly as ℚ and cast to
ℝ at its use sites.  `math.sqrt` is `Real.sqrt`, `math.log10` is
`Real.logb 10`.  Output formatting (Python `format(x, '.4f')`) is an
opaque-to-us parameter `fmt : ℝ → String`; the rendered file is the ordered
list of chunks passed to `f.write`.
-/

namespace FirstQuestion

/-- One entry of the `variables` list: `{'D1': int(...), 'Height': int(...)}`. -/
structure Obstruction where
  D1 : ℤ
  Height : ℤ
deriving DecidableEq, Repr

/-- The values the script reads from `deploy_data.txt` (lines 6-11 of the
source): `buildingA`, `buildingB`, `distanceBtw` are `int(...)`,
`transmissionFrequency` is `float(...)` (in MHz, as read, before the `*1e6`
conversion), and `variables` is the parsed obstruction list. -/
structure Config where
  buildingA : ℤ
  buildingB : ℤ
  distanceBtw : ℤ
  transmissionFrequency : ℚ
  vars : List Obstruction
deriving DecidableEq, Repr

/-- Line 24: `transmissionFrequency = transmissionFrequency * 1000000` (MHz → Hz). -/
def transmissionFrequencyHz (c : Config) : ℝ :=
  (c.transmissionFrequency : ℝ) * 1000000

/-- Line 25: `waveLength = 300000000/transmissionFrequency` (using the Hz value). -/
noncomputable def waveLength (c : Config) : ℝ :=
  300000000 / transmissionFrequencyHz c

/-- Lines 33-34: `D2 = distanceBtw - D1`;
`radius = math.sqrt((waveLength*D1*D2)/(D1 + D2))`. -/
noncomputable def radius (c : Config) (v : Obstruction) : ℝ :=
  Real.sqrt ((waveLength c * (v.D1 : ℝ) * ((c.distanceBtw - v.D1 : ℤ) : ℝ)) /
    ((v.D1 + (c.distanceBtw - v.D1) : ℤ) : ℝ))

/-- Line 35: the value appended to `LOStowerAs`:
`Height - buildingA + 0.6*radius`. -/
noncomputable def losCandidate (c : Config) (v : Obstruction) : ℝ :=
  (v.Height : ℝ) - (c.buildingA : ℝ) + 0.6 * radius c v

/-- Line 37: the value appended to `nearLOStowerAs`:
`Height - buildingA + 0.4*radius`. -/
noncomputable def nlosCandidate (c : Config) (v : Obstruction) : ℝ :=
  (v.Height : ℝ) - (c.buildingA : ℝ) + 0.4 * radius c v

/-- The list `LOStowerAs` after the loop of lines 32-38. -/
noncomputable def LOStowerAs (c : Config) : List ℝ :=
  c.vars.map (losCandidate c)

/-- The running maximum `LOStowerA`, seeded at `0` (line 27) and updated by
`LOStowerA = max(LOStowerA, LOStowerAs[-1])` (line 36). -/
noncomputable def LOStowerA (c : Config) : ℝ :=
  (LOStowerAs c).foldl max 0

/-- The list `nearLOStowerAs` after the loop of lines 32-38. -/
noncomputable def nearLOStowerAs (c : Config) : List ℝ :=
  c.vars.map (nlosCandidate c)

/-- The running maximum `nearLOStowerA`, seeded at `0` (line 29, line 38). -/
noncomputable def nearLOStowerA (c : Config) : ℝ :=
  (nearLOStowerAs c).foldl max 0

/-- Line 41: `LOStowerB = buildingA - buildingB + LOStowerA`. -/
noncomputable def LOStowerB (c : Config) : ℝ :=
  (c.buildingA : ℝ) - (c.buildingB : ℝ) + LOStowerA c

/-- Line 42: `nearLOStowerB = buildingA - buildingB + nearLOStowerA`. -/
noncomputable def nearLOStowerB (c : Config) : ℝ :=
  (c.buildingA : ℝ) - (c.buildingB : ℝ) + nearLOStowerA c

/-- Line 58: `attenuation = 92.5 +
20*math.log10((transmissionFrequency*distanceBtw/1000000000)/1000)`, where
`transmissionFrequency` holds the Hz value by this point. -/
noncomputable def attenuation (c : Config) : ℝ :=
  92.5 + 20 * Real.logb 10
    ((transmissionFrequencyHz c * (c.distanceBtw : ℝ) / 1000000000) / 1000)

/-- The spec's path-loss formula, stated from the spec's words
(`92.5 + 20*log10((freqHz * pathDistance / 1e9) / 1000)` with
`freqHz = frequencyMHz * 1e6`), to be compared with `attenuation`. -/
noncomputable def specPathLoss (c : Config) : ℝ :=
  92.5 + 20 * Real.logb 10
    (((c.transmissionFrequency : ℝ) * 1e6 * (c.distanceBtw : ℝ) / 1e9) / 1000)

/-- The spec's ClearanceResult record (§3): the six derived heights, the two
per-obstruction gap sequences (lines 50 and 57: `LOStowerAs[i] - LOStowerA`),
and the path-loss diagnostic. -/
structure ClearanceResult where
  losHeightA : ℝ
  losHeightB : ℝ
  nlosHeightA : ℝ
  nlosHeightB : ℝ
  perObstructionLosGap : List ℝ
  perObstructionNlosGap : List ℝ
  pathLossDb : ℝ

/-- The ClearanceResult the script computes for a configuration. -/
noncomputable def clearanceResult (c : Config) : ClearanceResult where
  losHeightA := LOStowerA c
  losHeightB := LOStowerB c
  nlosHeightA := nearLOStowerA c
  nlosHeightB := nearLOStowerB c
  perObstructionLosGap := (LOStowerAs c).map (fun x => x - LOStowerA c)
  perObstructionNlosGap := (nearLOStowerAs c).map (fun x => x - nearLOStowerA c)
  pathLossDb := attenuation c

/-- The ordered chunks written to `output.txt` (lines 44-60), with the
4-decimal formatter abstracted as `fmt`.  Each list entry is one `f.write`
call, in program order. -/
noncomputable def renderOutput (fmt : ℝ → String) (c : Config) : List String :=
  ["solution is feasible for LOS\n",
   "Antenna A height for LOS = " ++ fmt (LOStowerA c) ++ "\n",
   "Antenna B height for LOS = " ++ fmt (LOStowerB c) ++ "\n",
   "GAP for each building \n"] ++
  (LOStowerAs c).map (fun x => fmt (x - LOStowerA c) ++ " ") ++
  ["\n",
   "solution is feasible for nearLOS\n",
   "Antenna A height for NLOS = " ++ fmt (nearLOStowerA c) ++ "\n",
   "Antenna B height for NLOS = " ++ fmt (nearLOStowerB c) ++ "\n",
   "GAP for each building \n"] ++
  (nearLOStowerAs c).map (fun x => fmt (x - nearLOStowerA c) ++ " ") ++
  ["\n"]

/-- What the script prints to the console (line 59: `print(attenuation)`):
the path-loss diagnostic only, never the clearance results. -/
noncomputable def consoleOutput (fmt : ℝ → String) (c : Config) : List String :=
  [fmt (attenuation c)]

/-- Python error kinds the radius line can raise. -/
inductive PyError where
  | zeroDivision
  | mathDomain
deriving DecidableEq, Repr

open Classical in
/-- Lines 33-34 with Python's failure semantics made explicit: the division
`(waveLength*D1*D2)/(D1 + D2)` raises `ZeroDivisionError` when the (integer)
denominator `D1 + D2` is zero, and `math.sqrt` raises a math-domain
`ValueError` on a negative argument; otherwise the radius is returned. -/
noncomputable def radiusChecked (c : Config) (v : Obstruction) :
    Except PyError ℝ :=
  let D2 : ℤ := c.distanceBtw - v.D1
  if (v.D1 + D2 : ℤ) = 0 then .error .zeroDivision
  else
    let arg : ℝ := (waveLength c * (v.D1 : ℝ) * (D2 : ℝ)) / ((v.D1 + D2 : ℤ) : ℝ)
    if arg < 0 then .error .mathDomain
    else .ok (Real.sqrt arg)

/-- Leading and trailing whitespace of a character list (Python's numeric
conversions strip it, which is how `int(...)` digests the newline that
`readlines()` leaves on every line). -/
def stripWS (l : List Char) : List Char :=
  ((l.dropWhile Char.isWhitespace).reverse.dropWhile Char.isWhitespace).reverse

/-- Accumulate the value of a decimal digit string; `none` on a non-digit. -/
def digitsValAux : ℕ → List Char → Option ℕ
  | acc, [] => some acc
  | acc, c :: rest =>
    if c.isDigit then digitsValAux (10 * acc + (c.toNat - 48)) rest else none

/-- The value of a nonempty all-digit character list, else `none`. -/
def digitsVal : List Char → Option ℕ
  | [] => none
  | l => digitsValAux 0 l

/-- Python `int(s)`: strip surrounding whitespace, then an optional minus
sign followed by decimal digits; anything else (in particular a numeral
with a decimal point, like `300.5`) raises `ValueError`, modelled as
`none`. -/
def pyInt (s : String) : Option ℤ :=
  match stripWS s.data with
  | '-' :: rest => (digitsVal rest).map (fun n => -(n : ℤ))
  | l => (digitsVal l).map (fun n => (n : ℤ))

/-- The unsigned part of Python `float(s)` on the plain decimal numerals the
input format uses: digits, optionally one point followed by digits.  The
value is exact, as a rational. -/
def pyFloatAbs (l : List Char) : Option ℚ :=
  match l.span (fun c => c ≠ '.') with
  | (a, []) => (digitsVal a).map (fun n => (n : ℚ))
  | (a, _ :: rest) =>
    if rest.all (fun c => c ≠ '.') then
      match digitsVal a, digitsVal rest with
      | some x, some y => some ((x : ℚ) + (y : ℚ) / 10 ^ rest.length)
      | _, _ => none
    else none

/-- Python `float(s)` restricted to plain decimal numerals with an optional
minus sign. -/
def pyFloat (s : String) : Option ℚ :=
  match stripWS s.data with
  | '-' :: rest => (pyFloatAbs rest).map (fun q => -q)
  | l => pyFloatAbs l

/-- Line 11: `[{'D1': int(lines[i]), 'Height': int(lines[i+1])} for i in
range(5, 5+noOfBuilding*2, 2)]`, reading `n` pairs starting at line `idx`.
A missing line (Python `IndexError`) or a non-integer numeral (Python
`ValueError`) aborts the comprehension. -/
def parseObs (lines : List String) (idx : Nat) : Nat → Option (List Obstruction)
  | 0 => some []
  | n + 1 => do
    let l1 ← lines[idx]?
    let d ← pyInt l1
    let l2 ← lines[idx + 1]?
    let h ← pyInt l2
    let rest ← parseObs lines (idx + 2) n
    return ⟨d, h⟩ :: rest

/-- Lines 6-11: parse the input file (given as its list of lines).  `none`
models the uncaught Python exception that terminates the run before any
output is produced.  A negative obstruction count yields an empty list, as
Python's empty `range` does. -/
def parseConfig (lines : List String) : Option Config := do
  let a ← lines[0]? >>= pyInt
  let b ← lines[1]? >>= pyInt
  let d ← lines[2]? >>= pyInt
  let f ← lines[3]? >>= pyFloat
  let n ← lines[4]? >>= pyInt
  let obs ← parseObs lines 5 n.toNat
  return ⟨a, b, d, f, obs⟩

/-- The whole run: parse, compute, render.  `none` means the run aborted on
malformed input and `output.txt` was never created; otherwise the pair is
(file chunks, console lines). -/
noncomputable def runProgram (fmt : ℝ → String) (lines : List String) :
    Option (List String × List String) :=
  (parseConfig lines).map (fun c => (renderOutput fmt c, consoleOutput fmt c))

/-- The spec's §3 obstruction-geometry invariant, as a validity predicate on
configurations: a positive path length and every obstruction strictly
between the endpoints. -/
def ValidConfig (c : Config) : Prop :=
  0 < c.distanceBtw ∧ ∀ v ∈ c.vars, 0 < v.D1 ∧ v.D1 < c.distanceBtw

instance : DecidablePred ValidConfig := fun c => by
  unfold ValidConfig; infer_instance

/-- The worked example embedded in the source as comments (lines 12-22). -/
def exampleConfig : Config :=
  ⟨20, 15, 2000, 2400, [⟨300, 18⟩, ⟨600, 19⟩, ⟨1200, 21⟩, ⟨1600, 22⟩]⟩

/-- The radius is a square root, hence nonnegative. -/
theorem radius_nonneg (c : Config) (v : Obstruction) : 0 ≤ radius c v := by
  unfold radius; exact Real.sqrt_nonneg _

/-- The seed of a running `max` never exceeds the result. -/
theorem init_le_foldl_max (l : List ℝ) (a : ℝ) : a ≤ l.foldl max a := by
  induction l generalizing a with
  | nil => exact le_refl a
  | cons x xs ih => exact le_trans (le_max_left a x) (ih (max a x))

/-- Every element of the list is below the running `max`. -/
theorem mem_le_foldl_max {l : List ℝ} {x : ℝ} (a : ℝ) (h : x ∈ l) :
    x ≤ l.foldl max a := by
  induction l generalizing a with
  | nil => cases h
  | cons y ys ih =>
    rcases List.mem_cons.mp h with rfl | hy
    · exact le_trans (le_max_right a x) (init_le_foldl_max ys (max a x))
    · exact ih (max a y) hy

/-- A running `max` is either its seed or one of the list's elements. -/
theorem foldl_max_eq_init_or_mem (l : List ℝ) (a : ℝ) :
    l.foldl max a = a ∨ l.foldl max a ∈ l := by
  induction l generalizing a with
  | nil => exact Or.inl rfl
  | cons x xs ih =>
    have hfold : (x :: xs).foldl max a = xs.foldl max (max a x) := rfl
    rcases ih (max a x) with h | h
    · rw [hfold, h]
      rcases le_total a x with hax | hxa
      · exact Or.inr (by rw [max_eq_right hax]; exact List.mem_cons_self x xs)
      · exact Or.inl (max_eq_left hxa)
    · exact Or.inr (by rw [hfold]; exact List.mem_cons_of_mem x h)

/-- When some element is nonnegative, the zero-seeded running `max` is
attained by an element of the list. -/
theorem foldl_max_mem_of_exists_nonneg {l : List ℝ}
    (h : ∃ x ∈ l, 0 ≤ x) : l.foldl max 0 ∈ l := by
  rcases foldl_max_eq_init_or_mem l 0 with hc | hc
  · obtain ⟨x, hx, hx0⟩ := h
    have hle := mem_le_foldl_max (l := l) 0 hx
    rw [hc] at hle
    have hx0' : x = 0 := le_antisymm hle hx0
    rw [hc, ← hx0']
    exact hx
  · exact hc

/-- Pointwise dominated candidates give a dominated running `max`. -/
theorem foldl_max_mono {α : Type} {f g : α → ℝ} {l : List α} {a b : ℝ}
    (hab : a ≤ b) (h : ∀ x ∈ l, f x ≤ g x) :
    (l.map f).foldl max a ≤ (l.map g).foldl max b := by
  induction l generalizing a b with
  | nil => simpa using hab
  | cons x xs ih =>
    simp only [List.map_cons, List.foldl_cons]
    exact ih (max_le_max hab (h x (List.mem_cons_self x xs)))
      (fun y hy => h y (List.mem_cons_of_mem x hy))

/-- C4: for every configuration, `losHeightB - losHeightA` and
`nlosHeightB - nlosHeightA` both equal `buildingAHeight - buildingBHeight`
exactly (hence in particular within any positive tolerance such as 1e-9). -/
theorem c4_towerB_relation (c : Config) :
    LOStowerB c - LOStowerA c = (c.buildingA : ℝ) - (c.buildingB : ℝ) ∧
    nearLOStowerB c - nearLOStowerA c = (c.buildingA : ℝ) - (c.buildingB : ℝ) := by
  unfold LOStowerB nearLOStowerB
  constructor <;> ring

/-- C5: for every configuration, `nlosHeightA ≤ losHeightA`: each
0.4-radius candidate is below the corresponding 0.6-radius candidate
(the radius is nonnegative), and both running maxima share the seed 0. -/
theorem c5_nlos_le_los (c : Config) : nearLOStowerA c ≤ LOStowerA c := by
  unfold nearLOStowerA LOStowerA nearLOStowerAs LOStowerAs
  refine foldl_max_mono le_rfl (fun v _ => ?_)
  unfold nlosCandidate losCandidate
  nlinarith [radius_nonneg c v]

/-- C6: for every valid configuration, `losHeightA ≥ 0` and
`nlosHeightA ≥ 0`: both are running maxima seeded at 0. -/
theorem c6_nonneg (c : Config) (h : ValidConfig c) :
    0 ≤ LOStowerA c ∧ 0 ≤ nearLOStowerA c :=
  ⟨init_le_foldl_max _ 0, init_le_foldl_max _ 0⟩

/-- C6 witness: the worked example is valid and its heights are nonnegative. -/
theorem c6_nonneg_witness :
    ValidConfig exampleConfig ∧
    (0 ≤ LOStowerA exampleConfig ∧ 0 ≤ nearLOStowerA exampleConfig) :=
  ⟨by decide, c6_nonneg exampleConfig (by decide)⟩

/-- C9: with zero obstructions the computation yields
`losHeightA = nlosHeightA = 0`, both B-heights equal to
`buildingA - buildingB`, and both per-obstruction GAP sequences empty. -/
theorem c9_empty_obstructions (c : Config) (h : c.vars = []) :
    LOStowerA c = 0 ∧ nearLOStowerA c = 0 ∧
    LOStowerB c = (c.buildingA : ℝ) - (c.buildingB : ℝ) ∧
    nearLOStowerB c = (c.buildingA : ℝ) - (c.buildingB : ℝ) ∧
    (clearanceResult c).perObstructionLosGap = [] ∧
    (clearanceResult c).perObstructionNlosGap = [] := by
  have hA : LOStowerA c = 0 := by unfold LOStowerA LOStowerAs; rw [h]; rfl
  have hN : nearLOStowerA c = 0 := by unfold nearLOStowerA nearLOStowerAs; rw [h]; rfl
  refine ⟨hA, hN, ?_, ?_, ?_, ?_⟩
  · unfold LOStowerB; rw [hA]; ring
  · unfold nearLOStowerB; rw [hN]; ring
  · simp [clearanceResult, LOStowerAs, h]
  · simp [clearanceResult, nearLOStowerAs, h]

/-- A configuration with a well-formed header and zero obstructions. -/
def emptyConfig : Config := ⟨20, 15, 2000, 2400, []⟩

/-- C9 witness at a concrete zero-obstruction configuration. -/
theorem c9_empty_obstructions_witness :
    emptyConfig.vars = [] ∧
    (LOStowerA emptyConfig = 0 ∧ nearLOStowerA emptyConfig = 0 ∧
     LOStowerB emptyConfig = (emptyConfig.buildingA : ℝ) - (emptyConfig.buildingB : ℝ) ∧
     nearLOStowerB emptyConfig = (emptyConfig.buildingA : ℝ) - (emptyConfig.buildingB : ℝ) ∧
     (clearanceResult emptyConfig).perObstructionLosGap = [] ∧
     (clearanceResult emptyConfig).perObstructionNlosGap = []) :=
  ⟨rfl, c9_empty_obstructions emptyConfig rfl⟩

/-- The worked example's input file, line by line. -/
def exampleLines : List String :=
  ["20", "15", "2000", "2400", "4", "300", "18", "600", "19", "1200", "21", "1600", "22"]

/-- C8: determinism — identical input lines yield the identical
ClearanceResult and the identical rendered output (file chunks and console
lines), for any fixed formatter; the computation has no other input. -/
theorem c8_determinism (fmt : ℝ → String) (l1 l2 : List String) (h : l1 = l2) :
    (parseConfig l1).map clearanceResult = (parseConfig l2).map clearanceResult ∧
    runProgram fmt l1 = runProgram fmt l2 := by
  subst h; exact ⟨rfl, rfl⟩

/-- C8 witness: two runs on the worked example's input coincide. -/
theorem c8_determinism_witness :
    (parseConfig exampleLines).map clearanceResult =
      (parseConfig exampleLines).map clearanceResult ∧
    runProgram (fun _ => "") exampleLines = runProgram (fun _ => "") exampleLines :=
  c8_determinism (fun _ => "") exampleLines exampleLines rfl

/-- C7: the diagnostic path loss computed by the program equals the spec's
formula `92.5 + 20*log10((freqHz * pathDistance / 1e9) / 1000)` with
`freqHz = frequencyMHz * 1e6`, and it is emitted on the console stream
(the file chunks are produced by `renderOutput`, which never includes it). -/
theorem c7_path_loss (c : Config) (fmt : ℝ → String) :
    attenuation c = specPathLoss c ∧
    consoleOutput fmt c = [fmt (attenuation c)] := by
  refine ⟨?_, rfl⟩
  unfold attenuation specPathLoss transmissionFrequencyHz
  have harg : ((c.transmissionFrequency : ℝ) * 1000000 * (c.distanceBtw : ℝ) / 1000000000) / 1000
      = ((c.transmissionFrequency : ℝ) * 1e6 * (c.distanceBtw : ℝ) / 1e9) / 1000 := by
    norm_num
  rw [harg]

/-- Rational bounds on the Fresnel radii of the worked example. -/
theorem sqrt_31875_lt : Real.sqrt 31.875 < 6 :=
  (Real.sqrt_lt' (by norm_num)).mpr (by norm_num)

theorem sqrt_525_lt : Real.sqrt 52.5 < 7.25 :=
  (Real.sqrt_lt' (by norm_num)).mpr (by norm_num)

theorem sqrt_60_lt : Real.sqrt 60 < 7.75 :=
  (Real.sqrt_lt' (by norm_num)).mpr (by norm_num)

theorem sqrt_40_lt : Real.sqrt 40 < 6.32456 :=
  (Real.sqrt_lt' (by norm_num)).mpr (by norm_num)

theorem lt_sqrt_40 : (6.32445 : ℝ) < Real.sqrt 40 :=
  (Real.lt_sqrt (by norm_num)).mpr (by norm_num)

/-- The four Fresnel radii of the worked example, in closed form. -/
theorem radius_example_0 : radius exampleConfig ⟨300, 18⟩ = Real.sqrt 31.875 := by
  unfold radius waveLength transmissionFrequencyHz exampleConfig
  norm_num

theorem radius_example_1 : radius exampleConfig ⟨600, 19⟩ = Real.sqrt 52.5 := by
  unfold radius waveLength transmissionFrequencyHz exampleConfig
  norm_num

theorem radius_example_2 : radius exampleConfig ⟨1200, 21⟩ = Real.sqrt 60 := by
  unfold radius waveLength transmissionFrequencyHz exampleConfig
  norm_num

theorem radius_example_3 : radius exampleConfig ⟨1600, 22⟩ = Real.sqrt 40 := by
  unfold radius waveLength transmissionFrequencyHz exampleConfig
  norm_num

/-- On the worked example the obstruction at `D1 = 1600` dominates the
zero-seeded maximum: `losHeightA = 22 - 20 + 0.6*sqrt(40)`. -/
theorem losA_example_eq : LOStowerA exampleConfig = 2 + 0.6 * Real.sqrt 40 := by
  have hc0 : losCandidate exampleConfig ⟨300, 18⟩ = -2 + 0.6 * Real.sqrt 31.875 := by
    unfold losCandidate
    rw [radius_example_0]
    norm_num [exampleConfig]
  have hc1 : losCandidate exampleConfig ⟨600, 19⟩ = -1 + 0.6 * Real.sqrt 52.5 := by
    unfold losCandidate
    rw [radius_example_1]
    norm_num [exampleConfig]
  have hc2 : losCandidate exampleConfig ⟨1200, 21⟩ = 1 + 0.6 * Real.sqrt 60 := by
    unfold losCandidate
    rw [radius_example_2]
    norm_num [exampleConfig]
  have hc3 : losCandidate exampleConfig ⟨1600, 22⟩ = 2 + 0.6 * Real.sqrt 40 := by
    unfold losCandidate
    rw [radius_example_3]
    norm_num [exampleConfig]
  unfold LOStowerA LOStowerAs
  rw [show exampleConfig.vars = [⟨300, 18⟩, ⟨600, 19⟩, ⟨1200, 21⟩, ⟨1600, 22⟩] from rfl]
  simp only [List.map_cons, List.map_nil, List.foldl_cons, List.foldl_nil]
  rw [hc0, hc1, hc2, hc3]
  refine max_eq_right (max_le (max_le (max_le ?_ ?_) ?_) ?_)
  · linarith [lt_sqrt_40]
  · linarith [sqrt_31875_lt, lt_sqrt_40]
  · linarith [sqrt_525_lt, lt_sqrt_40]
  · linarith [sqrt_60_lt, lt_sqrt_40]

/-- C1 counterexample: on the worked-example input the computed
`losHeightA` is below 6, so it does not equal 7.3665 to 4 decimal places
(the spec's 8.944 is sqrt(80), but the radius argument is
0.125*1600*400/2000 = 40). -/
theorem c1_counterexample :
    ¬ |LOStowerA exampleConfig - 7.3665| < 0.00005 := by
  intro h
  rw [losA_example_eq, abs_lt] at h
  have := sqrt_40_lt
  linarith [h.1]

/-- C1 amended: on the worked example the wavelength is 0.125 m, the
obstruction at `D1 = 1600` (D2 = 400) produces the maximal LOS candidate
with radius sqrt(40) ≈ 6.3246, so `losHeightA = 22 - 20 + 0.6*sqrt(40)`,
which is 5.7947 to 4 decimal places, and
`nlosHeightB = 20 - 15 + nlosHeightA`. -/
theorem c1_worked_example :
    waveLength exampleConfig = 0.125 ∧
    LOStowerA exampleConfig = 2 + 0.6 * Real.sqrt 40 ∧
    |LOStowerA exampleConfig - 5.7947| < 0.00005 ∧
    nearLOStowerB exampleConfig = (20 : ℝ) - 15 + nearLOStowerA exampleConfig := by
  refine ⟨?_, losA_example_eq, ?_, ?_⟩
  · unfold waveLength transmissionFrequencyHz exampleConfig
    norm_num
  · rw [losA_example_eq, abs_lt]
    constructor
    · linarith [lt_sqrt_40]
    · linarith [sqrt_40_lt]
  · unfold nearLOStowerB
    norm_num [exampleConfig]

/-- C2 amended: in every configuration with at least one obstruction, every
per-obstruction LOS gap `losCandidate[i] - losHeightA` is ≤ 0; and whenever
at least one candidate is nonnegative, the gap is exactly 0 for some
obstruction (the maximizing one).  (When every candidate is negative the
zero seed wins the maximum and every gap is strictly negative.) -/
theorem c2_gap_sign (c : Config) (hne : c.vars ≠ []) :
    (∀ v ∈ c.vars, losCandidate c v - LOStowerA c ≤ 0) ∧
    ((∃ v ∈ c.vars, 0 ≤ losCandidate c v) →
      ∃ v ∈ c.vars, losCandidate c v - LOStowerA c = 0) := by
  constructor
  · intro v hv
    have hle : losCandidate c v ≤ LOStowerA c :=
      mem_le_foldl_max (l := LOStowerAs c) 0 (List.mem_map_of_mem _ hv)
    linarith
  · rintro ⟨v, hv, hv0⟩
    have hmem : LOStowerA c ∈ LOStowerAs c :=
      foldl_max_mem_of_exists_nonneg
        ⟨losCandidate c v, List.mem_map_of_mem _ hv, hv0⟩
    obtain ⟨w, hw, hweq⟩ := List.mem_map.mp hmem
    exact ⟨w, hw, by rw [hweq]; ring⟩

/-- C2 witness at the worked example: its obstruction list is nonempty, the
candidate at `D1 = 1600` is nonnegative, and the theorem's two conclusions
follow. -/
theorem c2_gap_sign_witness :
    exampleConfig.vars ≠ [] ∧
    (∀ v ∈ exampleConfig.vars,
      losCandidate exampleConfig v - LOStowerA exampleConfig ≤ 0) ∧
    (∃ v ∈ exampleConfig.vars,
      losCandidate exampleConfig v - LOStowerA exampleConfig = 0) := by
  have h := c2_gap_sign exampleConfig (by decide)
  refine ⟨by decide, h.1, h.2 ⟨⟨1600, 22⟩, by decide, ?_⟩⟩
  unfold losCandidate
  rw [radius_example_3]
  have := Real.sqrt_nonneg (40 : ℝ)
  norm_num [exampleConfig]
  linarith

/-- A valid one-obstruction configuration whose obstruction sits far below
building A. -/
def negConfig : Config := ⟨20, 15, 2000, 2400, [⟨300, 1⟩]⟩

/-- On `negConfig` the radius argument is 0.125*300*1700/2000 = 31.875. -/
theorem radius_negConfig : radius negConfig ⟨300, 1⟩ = Real.sqrt 31.875 := by
  unfold radius waveLength transmissionFrequencyHz negConfig
  norm_num

/-- On `negConfig` the only LOS candidate is negative. -/
theorem losCandidate_negConfig_neg : losCandidate negConfig ⟨300, 1⟩ < 0 := by
  unfold losCandidate
  rw [radius_negConfig,
    show ((Obstruction.mk 300 1).Height : ℝ) = 1 from by norm_num,
    show ((negConfig.buildingA : ℤ) : ℝ) = 20 from by norm_num [negConfig]]
  linarith [sqrt_31875_lt, Real.sqrt_nonneg (31.875 : ℝ)]

/-- C2 counterexample: a valid configuration with one obstruction where no
per-obstruction LOS gap equals 0 — the only candidate is negative, so the
zero seed wins the maximum and the single gap is strictly negative. -/
theorem c2_counterexample :
    negConfig.vars ≠ [] ∧ ValidConfig negConfig ∧
    ¬ ∃ v ∈ negConfig.vars, losCandidate negConfig v - LOStowerA negConfig = 0 := by
  refine ⟨by decide, by decide, ?_⟩
  rintro ⟨v, hv, heq⟩
  have hv' : v = ⟨300, 1⟩ := by
    have : negConfig.vars = [⟨300, 1⟩] := rfl
    rw [this] at hv
    simpa using hv
  subst hv'
  have hA : LOStowerA negConfig = 0 := by
    unfold LOStowerA LOStowerAs
    rw [show negConfig.vars = [⟨300, 1⟩] from rfl]
    simp only [List.map_cons, List.map_nil, List.foldl_cons, List.foldl_nil]
    exact max_eq_left losCandidate_negConfig_neg.le
  rw [hA, sub_zero] at heq
  exact absurd heq losCandidate_negConfig_neg.ne

/-- The radius denominator `D1 + D2` always collapses to the path distance. -/
theorem radius_denom_eq (c : Config) (v : Obstruction) :
    (v.D1 + (c.distanceBtw - v.D1) : ℤ) = c.distanceBtw := by ring

/-- With a nonzero path distance the radius line cannot divide by zero. -/
theorem radiusChecked_ne_zeroDivision (c : Config) (v : Obstruction)
    (hd : c.distanceBtw ≠ 0) :
    radiusChecked c v ≠ Except.error PyError.zeroDivision := by
  simp only [radiusChecked]
  rw [radius_denom_eq, if_neg hd]
  split
  · simp
  · simp

/-- An obstruction at either endpoint yields radius 0, not an error, when
the path distance is nonzero. -/
theorem radiusChecked_boundary (c : Config) (v : Obstruction)
    (hd : c.distanceBtw ≠ 0) (h : v.D1 = 0 ∨ v.D1 = c.distanceBtw) :
    radiusChecked c v = Except.ok 0 := by
  simp only [radiusChecked]
  rw [radius_denom_eq, if_neg hd]
  have harg : (waveLength c * (v.D1 : ℝ) * ((c.distanceBtw - v.D1 : ℤ) : ℝ)) /
      ((c.distanceBtw : ℤ) : ℝ) = 0 := by
    rcases h with h | h <;> simp [h]
  rw [harg, if_neg (lt_irrefl (0 : ℝ)), Real.sqrt_zero]

/-- A configuration whose single obstruction sits at `D1 = 0`. -/
def zeroDistConfig : Config := ⟨20, 15, 2000, 2400, [⟨0, 18⟩]⟩

/-- C3 counterexample: no valid configuration (positive path distance) makes
the radius computation divide by zero, even with an obstruction at
`distanceFromA = 0` or `= pathDistance`; at both endpoints of the worked
example's geometry the radius evaluates to `ok 0`. -/
theorem c3_counterexample :
    (¬ ∃ (c : Config) (v : Obstruction), ValidConfig c ∧ v ∈ c.vars ∧
        (v.D1 = 0 ∨ v.D1 = c.distanceBtw) ∧
        radiusChecked c v = Except.error PyError.zeroDivision) ∧
    radiusChecked zeroDistConfig ⟨0, 18⟩ = Except.ok 0 ∧
    radiusChecked ⟨20, 15, 2000, 2400, [⟨2000, 18⟩]⟩ ⟨2000, 18⟩ = Except.ok 0 := by
  refine ⟨?_, ?_, ?_⟩
  · rintro ⟨c, v, hval, hmem, hD1, heq⟩
    exact radiusChecked_ne_zeroDivision c v (ne_of_gt hval.1) heq
  · exact radiusChecked_boundary zeroDistConfig ⟨0, 18⟩ (by decide) (Or.inl rfl)
  · exact radiusChecked_boundary _ _ (by decide) (Or.inr rfl)

/-- C3 amended: the radius denominator `D1 + D2` always equals the path
distance, so whenever the path distance is nonzero the radius computation
performs no division by zero; an obstruction at `distanceFromA = 0` or
`= pathDistance` produces radius 0 (the numerator vanishes), not an
arithmetic error. -/
theorem c3_no_division_by_zero (c : Config) (v : Obstruction)
    (hd : c.distanceBtw ≠ 0) :
    radiusChecked c v ≠ Except.error PyError.zeroDivision ∧
    ((v.D1 = 0 ∨ v.D1 = c.distanceBtw) → radiusChecked c v = Except.ok 0) :=
  ⟨radiusChecked_ne_zeroDivision c v hd, radiusChecked_boundary c v hd⟩

/-- C3 witness: at the concrete `D1 = 0` configuration the hypotheses hold
and the radius line returns `ok 0`. -/
theorem c3_no_division_by_zero_witness :
    zeroDistConfig.distanceBtw ≠ 0 ∧
    radiusChecked zeroDistConfig ⟨0, 18⟩ ≠ Except.error PyError.zeroDivision ∧
    radiusChecked zeroDistConfig ⟨0, 18⟩ = Except.ok 0 := by
  have h := c3_no_division_by_zero zeroDistConfig ⟨0, 18⟩ (by decide)
  exact ⟨by decide, h.1, h.2 (Or.inl rfl)⟩

/-- Python `int` rejects a numeral with a decimal point. -/
theorem pyInt_decimal : pyInt "300.5" = none := by decide

/-- Python `float` accepts the same numeral, with exact value 300.5. -/
theorem pyFloat_decimal : pyFloat "300.5" = some (601 / 2) := by
  have h1 : pyFloat "300.5" =
      some (((300 : ℕ) : ℚ) + ((5 : ℕ) : ℚ) / 10 ^ (1 : ℕ)) := rfl
  rw [h1]
  norm_num

/-- A `300.5` on the frequency line parses fine: the frequency is the one
line converted with `float`, not `int`. -/
theorem parseConfig_freq_float :
    parseConfig ["20", "15", "2000", "300.5", "0"] =
      some ⟨20, 15, 2000, 601 / 2, []⟩ := by
  have h1 : parseConfig ["20", "15", "2000", "300.5", "0"] =
      some ⟨20, 15, 2000, ((300 : ℕ) : ℚ) + ((5 : ℕ) : ℚ) / 10 ^ (1 : ℕ), []⟩ := rfl
  rw [h1]
  norm_num [Config.mk.injEq]

/-- A `300.5` line anywhere inside the obstruction block makes the
comprehension of line 11 fail. -/
theorem parseObs_fail (lines : List String) (idx n j : ℕ)
    (hj : j < 2 * n) (hline : lines[idx + j]? = some "300.5") :
    parseObs lines idx n = none := by
  induction n generalizing idx j with
  | zero => omega
  | succ m ih =>
    rcases Nat.lt_or_ge j 2 with hj2 | hj2
    · simp only [parseObs]
      interval_cases j
      · rw [Nat.add_zero] at hline
        rw [hline]
        simp [pyInt_decimal]
      · cases h1 : lines[idx]? with
        | none => simp [h1]
        | some s =>
          cases h2 : pyInt s with
          | none => simp [h1, h2]
          | some d => simp [h1, h2, hline, pyInt_decimal]
    · obtain ⟨k, rfl⟩ : ∃ k, j = k + 2 := ⟨j - 2, by omega⟩
      have hk : k < 2 * m := by omega
      have hline' : lines[(idx + 2) + k]? = some "300.5" := by
        rw [show idx + 2 + k = idx + (k + 2) from by omega]
        exact hline
      have hrec := ih (idx + 2) k hk hline'
      simp only [parseObs]
      cases h1 : lines[idx]? with
      | none => simp [h1]
      | some s =>
        cases h2 : pyInt s with
        | none => simp [h1, h2]
        | some d =>
          cases h3 : lines[idx + 1]? with
          | none => simp [h1, h2, h3]
          | some s2 =>
            cases h4 : pyInt s2 with
            | none => simp [h1, h2, h3, h4]
            | some hh => simp [h1, h2, h3, h4, hrec]

/-- C10: every line other than the frequency line is parsed with Python
`int` — a non-integer numeral such as `300.5` in any of those positions
(the three header integers, the count, or any obstruction line) makes the
run abort before `output.txt` is created, so no partial output exists —
while the frequency line itself, parsed with `float`, accepts `300.5`. -/
theorem c10_int_parsing (lines : List String) (i : ℕ)
    (hi : i = 0 ∨ i = 1 ∨ i = 2 ∨ i = 4 ∨
      ∃ (n : ℤ) (j : ℕ), (lines[4]? >>= pyInt) = some n ∧ j < 2 * n.toNat ∧
        i = 5 + j)
    (hline : lines[i]? = some "300.5") :
    parseConfig lines = none ∧ (∀ fmt, runProgram fmt lines = none) ∧
    pyFloat "300.5" = some (601 / 2) ∧
    parseConfig ["20", "15", "2000", "300.5", "0"] =
      some ⟨20, 15, 2000, 601 / 2, []⟩ := by
  have hparse : parseConfig lines = none := by
    rcases hi with rfl | rfl | rfl | rfl | ⟨n, j, hn, hj, rfl⟩
    · unfold parseConfig
      rw [hline]
      simp [pyInt_decimal]
    · unfold parseConfig
      cases h0 : lines[0]? >>= pyInt with
      | none => simp [h0]
      | some a => simp [h0, hline, pyInt_decimal]
    · unfold parseConfig
      cases h0 : lines[0]? >>= pyInt with
      | none => simp [h0]
      | some a =>
        cases h1 : lines[1]? >>= pyInt with
        | none => simp [h0, h1]
        | some b => simp [h0, h1, hline, pyInt_decimal]
    · unfold parseConfig
      cases h0 : lines[0]? >>= pyInt with
      | none => simp [h0]
      | some a =>
        cases h1 : lines[1]? >>= pyInt with
        | none => simp [h0, h1]
        | some b =>
          cases h2 : lines[2]? >>= pyInt with
          | none => simp [h0, h1, h2]
          | some d =>
            cases h3 : lines[3]? >>= pyFloat with
            | none => simp [h0, h1, h2, h3]
            | some f => simp [h0, h1, h2, h3, hline, pyInt_decimal]
    · unfold parseConfig
      have hobs : parseObs lines 5 n.toNat = none :=
        parseObs_fail lines 5 n.toNat j hj hline
      cases h0 : lines[0]? >>= pyInt with
      | none => simp [h0]
      | some a =>
        cases h1 : lines[1]? >>= pyInt with
        | none => simp [h0, h1]
        | some b =>
          cases h2 : lines[2]? >>= pyInt with
          | none => simp [h0, h1, h2]
          | some d =>
            cases h3 : lines[3]? >>= pyFloat with
            | none => simp [h0, h1, h2, h3]
            | some f => simp [h0, h1, h2, h3, hn, hobs]
  refine ⟨hparse, ?_, pyFloat_decimal, parseConfig_freq_float⟩
  intro fmt
  simp [runProgram, hparse]

/-- C10 witness: a run whose sixth line (the first obstruction distance) is
`300.5` parses to `none` — no output is produced. -/
theorem c10_int_parsing_witness :
    ((5 : ℕ) = 0 ∨ (5 : ℕ) = 1 ∨ (5 : ℕ) = 2 ∨ (5 : ℕ) = 4 ∨
      ∃ (n : ℤ) (j : ℕ),
        ((["20", "15", "2000", "2400", "1", "300.5", "18"] :
          List String)[4]? >>= pyInt) = some n ∧ j < 2 * n.toNat ∧
        (5 : ℕ) = 5 + j) ∧
    (["20", "15", "2000", "2400", "1", "300.5", "18"] :
      List String)[5]? = some "300.5" ∧
    (parseConfig ["20", "15", "2000", "2400", "1", "300.5", "18"] = none ∧
     (∀ fmt, runProgram fmt ["20", "15", "2000", "2400", "1", "300.5", "18"] = none) ∧
     pyFloat "300.5" = some (601 / 2) ∧
     parseConfig ["20", "15", "2000", "300.5", "0"] =
       some ⟨20, 15, 2000, 601 / 2, []⟩) :=
  ⟨Or.inr (Or.inr (Or.inr (Or.inr ⟨1, 0, by decide, by decide, rfl⟩))), rfl,
   c10_int_parsing ["20", "15", "2000", "2400", "1", "300.5", "18"] 5
     (Or.inr (Or.inr (Or.inr (Or.inr ⟨1, 0, by decide, by decide, rfl⟩)))) rfl⟩

end FirstQuestion
